import Mathlib

/-!
Shallow embedding of `pkg/security/probe/perf_buffer_monitor.go` (package
`probe` of the datadog-agent repository): the perf-buffer telemetry monitor.
Machine integers are modelled as `Nat` (unsigned) or `Int` (signed) with
explicit wrap-around where the Go code can overflow; Go run-time panics
(nil-pointer dereference, index out of range) are modelled by `Option`
results, `none` meaning the call panics; Go maps keyed by strings are
modelled as association lists in a fixed iteration order.
-/

namespace Probe

/-- 2^64, the modulus of Go's `uint64` arithmetic. -/
def U64 : Nat := 2 ^ 64

/-- `atomic.AddUint64`-style wrap-around addition on `uint64`. -/
def addU64 (a b : Nat) : Nat := (a + b) % U64

/-- The Go conversion `int64(x)` applied to a `uint64` value `x` (two's complement). -/
def u64ToI64 (n : Nat) : Int := if n < 2 ^ 63 then (n : Int) else (n : Int) - 2 ^ 64

/-- `atomic.AddInt64`-style wrap-around on `int64`: normalises into `[-2^63, 2^63)`. -/
def wrapI64 (x : Int) : Int := (x + 2 ^ 63) % 2 ^ 64 - 2 ^ 63

/-- `PerfMapStats` — the collected metrics for one event and one cpu in a perf
buffer statistics map: `Bytes`, `Count`, `Lost`, each a `uint64`. -/
structure PerfMapStats where
  bytes : Nat
  count : Nat
  lost : Nat
deriving Repr, DecidableEq

/-- The all-zero stat cell (Go zero value of `PerfMapStats`). -/
def zeroStats : PerfMapStats := ⟨0, 0, 0⟩

/-- Modelled from the spec: `model.ErrNotEnoughData` lives in the `model`
package, which is outside the sampled sources; the decode error is the only
error value the monitor's decoder produces. -/
inductive ModelError where
  | errNotEnoughData
deriving Repr, DecidableEq

/-- Modelled from the spec: `model.ByteOrder.Uint64` reads one 8-byte unsigned
integer in the pipeline's configured byte order ("three consecutive 8-byte
unsigned integers in the pipeline's configured byte order"); the configured
order is fixed here as little-endian. Applied to the 8-byte slice. -/
def byteOrderUint64 (bs : List Nat) : Nat :=
  (bs.take 8).foldr (fun b acc => b + 256 * acc) 0

/-- `(*PerfMapStats).UnmarshalBinary(data)` — parses a map entry. The Go
method mutates its receiver and returns an error; modelled as returning the
post-call receiver together with the optional error. -/
def UnmarshalBinary (s : PerfMapStats) (data : List Nat) : PerfMapStats × Option ModelError :=
  if data.length < 24 then (s, some ModelError.errNotEnoughData)
  else
    ({ bytes := byteOrderUint64 (data.take 8)
       count := byteOrderUint64 ((data.drop 8).take 8)
       lost := byteOrderUint64 ((data.drop 16).take 8) }, none)

/-- Modelled from the spec: `model.MaxEventType` (the `model` package is
outside the sampled sources). The spec only requires that event types are
1-indexed kernel ids below a fixed bound; no claim depends on the bound's
concrete value. -/
def MaxEventType : Nat := 8

/-- Modelled from the spec: `model.FileRenameEventType`, a mutation-class event id. -/
def FileRenameEventType : Nat := 4

/-- Modelled from the spec: `model.FileUnlinkEventType`, a mutation-class event id. -/
def FileUnlinkEventType : Nat := 5

/-- Modelled from the spec: `model.FileRmdirEventType`, a mutation-class event id. -/
def FileRmdirEventType : Nat := 6

/-- Association-list lookup, modelling a Go map read that distinguishes a
missing key (`none`). -/
def alookup (m : List (String × α)) (k : String) : Option α :=
  (m.find? (fun p => p.1 = k)).map Prod.snd

/-- Go map read of a slice-valued map: a missing key yields the zero value,
the nil slice, and a registered-but-empty entry (built from zero append
iterations) is also nil — both are `[]` here. -/
def alookupD (m : List (String × List α)) (k : String) : List α :=
  (alookup m k).getD []

/-- In-place update of the value stored under key `k` (no-op when absent),
modelling mutation through a Go map entry. -/
def aupdate (m : List (String × α)) (k : String) (f : α → α) : List (String × α) :=
  m.map (fun p => if p.1 = k then (p.1, f p.2) else p)

/-- In-place update of the `i`-th element of a list (no-op when out of range),
modelling mutation through a Go slice/array index. -/
def lupdate (l : List α) (i : Nat) (f : α → α) : List α :=
  match l.get? i with
  | none => l
  | some x => l.set i (f x)

/-- The mutable state of a `PerfBufferMonitor`: the user-observed grid
(`stats`), the kernel-authoritative grid (`kernelStats`), the per-CPU lost
read counters, the per-event-type sorting error counters, the global
timestamp watermark and the cache-generation flag. `perfBufferStatsMaps`
lists the perf-buffer names that own a kernel statistics table, in iteration
order. A missing key in `sortingErrorStats` models the Go zero value of
`[MaxEventType]*int64`: an array of nil pointers, on which any
`atomic.AddInt64` panics. -/
structure PBMState where
  numCPU : Nat
  perfBufferStatsMaps : List String
  stats : List (String × List (List PerfMapStats))
  kernelStats : List (String × List (List PerfMapStats))
  readLostEvents : List (String × List Nat)
  sortingErrorStats : List (String × List Int)
  lastTimestamp : Nat
  shouldBumpGeneration : Nat
deriving Repr, DecidableEq

/-- One zeroed (CPU × event-type) grid, as `NewPerfBufferMonitor` builds it. -/
def initGrid (numCPU : Nat) : List (List PerfMapStats) :=
  List.replicate numCPU (List.replicate MaxEventType zeroStats)

/-- The user-space counter state prepared by `NewPerfBufferMonitor` (lines
120–146): zeroed user and kernel grids, zeroed lost counters and sorting
error counters for every perf map, watermark and generation flag at 0. -/
def initState (buffers : List String) (numCPU : Nat) : PBMState where
  numCPU := numCPU
  perfBufferStatsMaps := buffers
  stats := buffers.map (fun b => (b, initGrid numCPU))
  kernelStats := buffers.map (fun b => (b, initGrid numCPU))
  readLostEvents := buffers.map (fun b => (b, List.replicate numCPU 0))
  sortingErrorStats := buffers.map (fun b => (b, List.replicate MaxEventType 0))
  lastTimestamp := 0
  shouldBumpGeneration := 0

/-- Read one user-grid cell (zero cell when out of range); proof-side accessor. -/
def statsCellD (s : PBMState) (b : String) (cpu et : Nat) : PerfMapStats :=
  (((alookupD s.stats b).getD cpu []).getD et zeroStats)

/-- Read one kernel-grid cell (zero cell when out of range); proof-side accessor. -/
def kernelCellD (s : PBMState) (b : String) (cpu et : Nat) : PerfMapStats :=
  (((alookupD s.kernelStats b).getD cpu []).getD et zeroStats)

/-- Read one sorting-error counter (0 when out of range); proof-side accessor. -/
def sortingCellD (s : PBMState) (b : String) (et : Nat) : Int :=
  ((alookupD s.sortingErrorStats b).getD et 0)

/-- Read one lost-event counter (0 when out of range); proof-side accessor. -/
def lostCellD (s : PBMState) (b : String) (cpu : Nat) : Nat :=
  ((alookupD s.readLostEvents b).getD cpu 0)

/-- Overwrite one kernel-grid cell; used to describe pre-states in theorems. -/
def withKernelCell (s : PBMState) (b : String) (cpu et : Nat) (v : PerfMapStats) : PBMState :=
  { s with kernelStats := aupdate s.kernelStats b (fun rows => lupdate rows cpu (fun row => lupdate row et (fun _ => v))) }

/-- Overwrite one user-grid cell; used to describe pre-states in theorems. -/
def withStatsCell (s : PBMState) (b : String) (cpu et : Nat) (v : PerfMapStats) : PBMState :=
  { s with stats := aupdate s.stats b (fun rows => lupdate rows cpu (fun row => lupdate row et (fun _ => v))) }

/-- `CountLostEvent(count, m, cpu)` (lines 310–316): adds `count` to the lost
counter of `(m.Name, cpu)`. The sanity check returns when the slice for the
map name is nil or too short; a negative `cpu` passes the `len <= cpu` check
and panics on the index (`none`). -/
def CountLostEvent (s : PBMState) (count : Nat) (name : String) (cpu : Int) : Option PBMState :=
  let l := alookupD s.readLostEvents name
  if l = [] ∨ (l.length : Int) ≤ cpu then some s
  else if cpu < 0 then none
  else some { s with readLostEvents := aupdate s.readLostEvents name (fun a => lupdate a cpu.toNat (fun x => addU64 x count)) }

/-- `CountEvent(eventType, timestamp, count, size, m, cpu)` (lines 319–335).
The event-order check runs first: on `timestamp < lastTimestamp` with a
non-zero watermark it increments the sorting-error counter of
`(m.Name, eventType)` — panicking (`none`) when the map name is unregistered
(nil `*int64`) or the event type is outside the counter array — and swaps the
generation flag to 1; otherwise it advances the watermark. Only then the
sanity check guards the grid update; a negative `cpu` panics on the third
guard's index expression. -/
def CountEvent (s : PBMState) (eventType : Nat) (timestamp count size : Nat)
    (name : String) (cpu : Int) : Option PBMState :=
  let step1 : Option PBMState :=
    if timestamp < s.lastTimestamp ∧ s.lastTimestamp ≠ 0 then
      match alookup s.sortingErrorStats name with
      | none => none
      | some arr =>
        if eventType < arr.length then
          some { s with
            sortingErrorStats := aupdate s.sortingErrorStats name (fun a => lupdate a eventType (fun x => wrapI64 (x + 1)))
            shouldBumpGeneration := 1 }
        else none
    else some { s with lastTimestamp := timestamp }
  match step1 with
  | none => none
  | some s1 =>
    let rows := alookupD s1.stats name
    if rows = [] then some s1
    else if (rows.length : Int) ≤ cpu then some s1
    else if cpu < 0 then none
    else
      let row := rows.getD cpu.toNat []
      if row.length ≤ eventType then some s1
      else some { s1 with
        stats := aupdate s1.stats name (fun rs => lupdate rs cpu.toNat (fun r => lupdate r eventType
          (fun cell => { cell with count := addU64 cell.count count, bytes := addU64 cell.bytes size }))) }

/-- `GetAndResetLostCount(perfMap, cpu)` (lines 217–230): for `cpu == -1`,
drains every per-CPU lost counter of the map (wrap-around accumulation into a
`uint64` total); for `0 <= cpu < numCPU`, drains that single counter — the
internal `getAndResetReadLostCount` indexes unchecked and panics (`none`)
when the map name has no slice or the slice is shorter than `numCPU`; any
other `cpu` falls through the switch and returns 0. -/
def GetAndResetLostCount (s : PBMState) (name : String) (cpu : Int) : Option (Nat × PBMState) :=
  if cpu = -1 then
    let l := alookupD s.readLostEvents name
    some (l.foldl addU64 0,
      { s with readLostEvents := aupdate s.readLostEvents name (fun a => a.map (fun _ => 0)) })
  else if 0 ≤ cpu ∧ cpu < (s.numCPU : Int) then
    let l := alookupD s.readLostEvents name
    match l.get? cpu.toNat with
    | none => none
    | some v => some (v,
        { s with readLostEvents := aupdate s.readLostEvents name (fun a => lupdate a cpu.toNat (fun _ => 0)) })
  else some (0, s)

/-- Unchecked read of `pbm.stats[perfMap][cpu][eventType]`, as performed by
`getEventCount`/`getEventBytes`; `none` models the index panic. -/
def statsCellP (s : PBMState) (name : String) (cpu et : Nat) : Option PerfMapStats :=
  match (alookupD s.stats name).get? cpu with
  | none => none
  | some row => row.get? et

/-- `GetEventStats(eventType, perfMap, cpu)` (lines 258–292). Faithful to the
source: the `maps` list is built from `perfMap` (all registered maps on an
empty name), but the accumulation loop indexes `pbm.stats[perfMap]` — the
*parameter*, not the loop variable `m` — so the empty-name aggregate panics
(`none`) as soon as a cell is read. An event type at or above `MaxEventType`
returns the zero value immediately. -/
def GetEventStats (s : PBMState) (eventType : Nat) (perfMap : String) (cpu : Int) : Option PerfMapStats :=
  if MaxEventType ≤ eventType then some zeroStats
  else
    let maps : List String :=
      if perfMap.length = 0 then s.stats.map Prod.fst
      else if alookupD s.stats perfMap ≠ [] then [perfMap]
      else []
    maps.foldl (fun acc m =>
      match acc with
      | none => none
      | some st =>
        if cpu = -1 then
          (List.range (alookupD s.stats m).length).foldl (fun acc2 i =>
            match acc2, statsCellP s perfMap i eventType with
            | some st2, some cell =>
                some { st2 with count := addU64 st2.count cell.count, bytes := addU64 st2.bytes cell.bytes }
            | _, _ => none) (some st)
        else if 0 ≤ cpu ∧ cpu < (s.numCPU : Int) then
          match statsCellP s perfMap cpu.toNat eventType with
          | none => none
          | some cell =>
              some { st with count := addU64 st.count cell.count, bytes := addU64 st.bytes cell.bytes }
        else some st) (some zeroStats)

/-- One tagged counter handed to the statsd client: metric name, `int64`
value, and the map / event-type tags. The client transport is modelled as an
always-accepting emission log. -/
structure Emission where
  metric : String
  value : Int
  map : String
  event : Nat
deriving Repr, DecidableEq

/-- Modelled from the spec: `metrics.MetricPerfBufferEventsWrite` (metric
name constants live outside the sampled sources). -/
def MetricPerfBufferEventsWrite : String := "perf_buffer.events.write"

/-- Modelled from the spec: `metrics.MetricPerfBufferBytesWrite`. -/
def MetricPerfBufferBytesWrite : String := "perf_buffer.bytes.write"

/-- Modelled from the spec: `metrics.MetricPerfBufferLostWrite`. -/
def MetricPerfBufferLostWrite : String := "perf_buffer.lost_events.write"

/-- Modelled from the spec: `metrics.MetricPerfBufferEventsRead`. -/
def MetricPerfBufferEventsRead : String := "perf_buffer.events.read"

/-- Modelled from the spec: `metrics.MetricPerfBufferBytesRead`. -/
def MetricPerfBufferBytesRead : String := "perf_buffer.bytes.read"

/-- Modelled from the spec: `metrics.MetricPerfBufferLostRead`. -/
def MetricPerfBufferLostRead : String := "perf_buffer.lost_events.read"

/-- Modelled from the spec: `metrics.MetricPerfBufferSortingError`. -/
def MetricPerfBufferSortingError : String := "perf_buffer.sorting_error"

/-- `sendKernelStats(client, stats, tags)` (lines 479–499): emits the three
write-side counters of one delta cell, each only when the raw `uint64` field
is positive (`stats.Count > 0`), sending its `int64` cast — negative for
values of `2^63` or more — in source order Count, Bytes, Lost. -/
def sendKernelStatsEms (δ : PerfMapStats) (mapName : String) (event : Nat) : List Emission :=
  (if 0 < δ.count then [⟨MetricPerfBufferEventsWrite, u64ToI64 δ.count, mapName, event⟩] else [])
    ++ (if 0 < δ.bytes then [⟨MetricPerfBufferBytesWrite, u64ToI64 δ.bytes, mapName, event⟩] else [])
    ++ (if 0 < δ.lost then [⟨MetricPerfBufferLostWrite, u64ToI64 δ.lost, mapName, event⟩] else [])

/-- The observable behaviour of one kernel statistics map
(`statsMap.Iterate()`): the `(key, per-CPU values)` entries the iterator
yields, in order, and whether `iterator.Err()` is non-nil afterwards. -/
structure KernelTable where
  entries : List (Nat × List PerfMapStats)
  iterErr : Bool

/-- The accumulator of `collectAndSendKernelStats` inside one perf-map
iteration: the monitor state, the emission log so far, and the per-buffer
`total` and `perEvent` lost tallies used for the lost-write notification. -/
structure BufAcc where
  state : PBMState
  ems : List Emission
  total : Nat
  perEvent : List (Nat × Nat)
deriving Repr, DecidableEq

/-- Outcome of processing kernel-table entries: a run-time panic, the sanity
check's `return nil` (which ends the *whole* collection successfully), or
normal continuation. -/
inductive BufStep where
  | crashed
  | abortAll (acc : BufAcc)
  | ok (acc : BufAcc)
deriving Repr, DecidableEq

/-- `perEvent[evtType.String()] = 0` when the key is absent (line 436–438);
keyed here by the event-type id. -/
def perEventInit (pe : List (Nat × Nat)) (et : Nat) : List (Nat × Nat) :=
  if (pe.find? (fun p => p.1 = et)).isSome then pe else pe ++ [(et, 0)]

/-- `perEvent[evtType.String()] += stats.Lost` (line 462), `uint64` wrap. -/
def perEventAdd (pe : List (Nat × Nat)) (et v : Nat) : List (Nat × Nat) :=
  pe.map (fun p => if p.1 = et then (p.1, addU64 p.2 v) else p)

/-- The body of the per-CPU loop of `collectAndSendKernelStats` (lines
426–463) for one `(cpu, stats)` pair read from the kernel table: sanity
checks on the user grid (whose failure `return nil`s out of the whole
collection), the three swap-and-diff updates of the kernel grid — each field
of the local copy is reduced by the previous snapshot only when
`previous <= new` and otherwise keeps the newly read value — the
mutation-class generation bump, the conditional statsd emission, and the
lost tallies. -/
def stepCell (client : Bool) (name : String) (evtType cpu : Nat) (rs : PerfMapStats) (acc : BufAcc) : BufStep :=
  let s := acc.state
  let rows := alookupD s.stats name
  if rows = [] ∨ rows.length ≤ cpu ∨ (rows.getD cpu []).length ≤ evtType then BufStep.abortAll acc
  else
    match (alookupD s.kernelStats name).get? cpu with
    | none => BufStep.crashed
    | some krow =>
      match krow.get? evtType with
      | none => BufStep.crashed
      | some prev =>
        let deltaBytes := if prev.bytes ≤ rs.bytes then rs.bytes - prev.bytes else rs.bytes
        let deltaCount := if prev.count ≤ rs.count then rs.count - prev.count else rs.count
        let deltaLost := if prev.lost ≤ rs.lost then rs.lost - prev.lost else rs.lost
        let knew := aupdate s.kernelStats name (fun kr => lupdate kr cpu (fun r => lupdate r evtType (fun _ => rs)))
        let s1 := { s with kernelStats := knew }
        let s2 := if evtType = FileRenameEventType ∨ evtType = FileUnlinkEventType ∨ evtType = FileRmdirEventType
          then { s1 with shouldBumpGeneration := 1 } else s1
        let ems2 := if client then acc.ems ++ sendKernelStatsEms ⟨deltaBytes, deltaCount, deltaLost⟩ name evtType
          else acc.ems
        BufStep.ok { state := s2, ems := ems2, total := addU64 acc.total deltaLost,
                     perEvent := perEventAdd (perEventInit acc.perEvent evtType) evtType deltaLost }

/-- `for cpu, stats := range cpuStats` (line 426), starting at index `cpu`. -/
def stepCells (client : Bool) (name : String) (evtType : Nat) : Nat → List PerfMapStats → BufAcc → BufStep
  | _, [], acc => BufStep.ok acc
  | cpu, rs :: rest, acc =>
    match stepCell client name evtType cpu rs acc with
    | BufStep.ok acc1 => stepCells client name evtType (cpu + 1) rest acc1
    | r => r

/-- One iterator entry (lines 415–424): key 0 is reserved and skipped, the
event type is `id % MaxEventType`, then the per-CPU loop runs. -/
def stepEntry (client : Bool) (name : String) (entry : Nat × List PerfMapStats) (acc : BufAcc) : BufStep :=
  if entry.1 = 0 then BufStep.ok acc
  else stepCells client name (entry.1 % MaxEventType) 0 entry.2 acc

/-- `for iterator.Next(&id, &cpuStats)`: all yielded entries, in order. -/
def stepEntries (client : Bool) (name : String) : List (Nat × List PerfMapStats) → BufAcc → BufStep
  | [], acc => BufStep.ok acc
  | e :: rest, acc =>
    match stepEntry client name e acc with
    | BufStep.ok acc1 => stepEntries client name rest acc1
    | r => r

/-- Result of `collectAndSendKernelStats`: a run-time panic, or the final
state together with the emission log, the dispatched lost-write notification
events `(map, perEvent)`, and the returned error if any. -/
inductive CollectOut where
  | crashed
  | done (state : PBMState) (ems : List Emission) (lostWrites : List (String × List (Nat × Nat))) (err : Option String)
deriving Repr, DecidableEq

/-- The outer loop of `collectAndSendKernelStats` (lines 407–475) over the
perf maps owning a statistics table: per buffer, iterate its kernel table,
then surface `iterator.Err()` — which *returns* from the whole function,
leaving later buffers unprocessed — otherwise dispatch the lost-write
notification when the buffer's total lost is positive and continue. -/
def collectLoop (client : Bool) (tables : String → KernelTable) (s : PBMState)
    (ems : List Emission) (lws : List (String × List (Nat × Nat))) : List String → CollectOut
  | [] => CollectOut.done s ems lws none
  | name :: rest =>
    match stepEntries client name (tables name).entries ⟨s, ems, 0, []⟩ with
    | BufStep.crashed => CollectOut.crashed
    | BufStep.abortAll acc => CollectOut.done acc.state acc.ems lws none
    | BufStep.ok acc =>
      if (tables name).iterErr then
        CollectOut.done acc.state acc.ems lws
          (some ("failed to dump the statistics buffer of map " ++ name))
      else
        collectLoop client tables acc.state acc.ems
          (if 0 < acc.total then lws ++ [(name, acc.perEvent)] else lws) rest

/-- `collectAndSendKernelStats(client)` (lines 397–477); `client` is whether
a statsd client was passed (`nil` disables emission but not reconciliation). -/
def collectAndSendKernelStats (s : PBMState) (client : Bool) (tables : String → KernelTable) : CollectOut :=
  collectLoop client tables s [] [] s.perfBufferStatsMaps

/-- `GetAndResetKernelLostCount(perfMap, cpu, evtTypes...)` (lines 181–207):
first queries the kernel maps with a nil client (the error is discarded),
then sums the kernel-grid `Lost` cells of the selected CPUs. Faithful to the
source: `for evtType := range evtTypes` ranges over the *indices* of the
filter slice, so an entry is counted when its event type is `0 ..
len(evtTypes)-1` (or the filter is empty) — not when it is one of the named
types. -/
def GetAndResetKernelLostCount (s : PBMState) (tables : String → KernelTable)
    (perfMap : String) (cpu : Int) (evtTypes : List Nat) : Option (Nat × PBMState) :=
  match collectAndSendKernelStats s false tables with
  | CollectOut.crashed => none
  | CollectOut.done s1 _ _ _ =>
    let rows := alookupD s1.kernelStats perfMap
    let total := (List.range rows.length).foldl (fun (t : Nat) (cpuID : Nat) =>
      if cpu = -1 ∨ cpu = (cpuID : Int) then
        (List.range (rows.getD cpuID []).length).foldl (fun t2 kernelEvtType =>
          let shouldCount := evtTypes.length = 0 ∨
            (List.range evtTypes.length).any (fun evtType => evtType = kernelEvtType)
          if shouldCount then addU64 t2 ((rows.getD cpuID []).getD kernelEvtType zeroStats).lost
          else t2) t
      else t) 0
    some (total, s1)

/-- Option-valued left fold, threading a possibly-panicking loop body. -/
def foldO (f : α → β → Option β) : List α → β → Option β
  | [], acc => some acc
  | x :: rest, acc =>
    match f x acc with
    | none => none
    | some acc1 => foldO f rest acc1

/-- The innermost body of `sendEventsAndBytesReadStats` (lines 345–366) for
one `(m, cpu, eventType)`: drain the user-grid count and bytes (emitting each
when its `int64` cast is positive), then drain the sorting-error counter —
which dereferences `sortingErrorStats[m][eventType]` and panics when the map
name is unregistered there — emitting it when positive. -/
def drainOneCell (m : String) (cpu et : Nat) (s : PBMState) (ems : List Emission) :
    Option (PBMState × List Emission) :=
  let cell := statsCellD s m cpu et
  let e1 := if 0 < u64ToI64 cell.count then [⟨MetricPerfBufferEventsRead, u64ToI64 cell.count, m, et⟩] else []
  let e2 := if 0 < u64ToI64 cell.bytes then [⟨MetricPerfBufferBytesRead, u64ToI64 cell.bytes, m, et⟩] else []
  let s1 := withStatsCell s m cpu et { cell with count := 0, bytes := 0 }
  match alookup s1.sortingErrorStats m with
  | none => none
  | some arr =>
    match arr.get? et with
    | none => none
    | some v =>
      let s2 := { s1 with sortingErrorStats := aupdate s1.sortingErrorStats m (fun a => lupdate a et (fun _ => 0)) }
      let e3 := if 0 < v then [⟨MetricPerfBufferSortingError, v, m, et⟩] else []
      some (s2, ems ++ e1 ++ e2 ++ e3)

/-- `sendEventsAndBytesReadStats(client)` (lines 337–370): the triple loop
over the user grid. The statsd transport is modelled as an always-accepting
emission log, so the only failure mode kept is the run-time panic. -/
def sendEventsAndBytesReadStats (s : PBMState) : Option (PBMState × List Emission) :=
  foldO (fun m acc =>
      foldO (fun cpu acc1 =>
          foldO (fun et acc2 => drainOneCell m cpu et acc2.1 acc2.2)
            (List.range ((alookupD acc1.1.stats m).getD cpu []).length) acc1)
        (List.range (alookupD acc.1.stats m).length) acc)
    (s.stats.map Prod.fst) (s, [])

/-- `sendLostEventsReadStats(client)` (lines 372–395): drain every per-CPU
lost-read counter, emit each positive one, and dispatch one lost-read
notification `(m, total)` per buffer whose total is positive. Go accumulates
`total` in `float64`; modelled exactly over naturals, which agrees on every
behaviour the theorems below use. -/
def sendLostEventsReadStats (s : PBMState) : PBMState × List Emission × List (String × Nat) :=
  (s.readLostEvents.map Prod.fst).foldl (fun acc m =>
      let l := alookupD acc.1.readLostEvents m
      let total := l.foldl (· + ·) 0
      let ems := l.foldl (fun e v =>
        if 0 < v then e ++ [⟨MetricPerfBufferLostRead, u64ToI64 v, m, 0⟩] else e) acc.2.1
      let s1 := { acc.1 with readLostEvents := aupdate acc.1.readLostEvents m (fun a => a.map (fun _ => 0)) }
      (s1, ems, if 0 < total then acc.2.2 ++ [(m, total)] else acc.2.2))
    (s, [], [])

/-- Result of `SendStats`: final state, all statsd emissions in order, the
lost-write and lost-read notification dispatches, whether
`BumpCacheGenerations` was invoked, and the returned error. -/
structure SendOut where
  state : PBMState
  ems : List Emission
  lostWrites : List (String × List (Nat × Nat))
  lostReads : List (String × Nat)
  bumped : Bool
  err : Option String
deriving Repr, DecidableEq

/-- `SendStats()` (lines 502–516): kernel reconciliation first — an error
there is returned immediately — then the generation flag is swapped to 0 and
`BumpCacheGenerations` is invoked iff the swapped-out value was 1, then the
read-side and lost-read drains run. -/
def SendStats (s : PBMState) (tables : String → KernelTable) : Option SendOut :=
  match collectAndSendKernelStats s true tables with
  | CollectOut.crashed => none
  | CollectOut.done s1 ems1 lw err1 =>
    match err1 with
    | some e => some ⟨s1, ems1, lw, [], false, some e⟩
    | none =>
      let prior := s1.shouldBumpGeneration
      let s2 := { s1 with shouldBumpGeneration := 0 }
      match sendEventsAndBytesReadStats s2 with
      | none => none
      | some (s3, ems2) =>
        let out := sendLostEventsReadStats s3
        some ⟨out.1, ems1 ++ ems2 ++ out.2.1, lw, out.2.2, prior == 1, none⟩

/-- The per-field guarded subtraction of lines 441–449, named for the
theorems: each field of the newly read cell is reduced by the previous
snapshot only when `previous <= new`; otherwise it keeps the raw new value. -/
def reconDelta (prev rs : PerfMapStats) : PerfMapStats :=
  ⟨if prev.bytes ≤ rs.bytes then rs.bytes - prev.bytes else rs.bytes,
   if prev.count ≤ rs.count then rs.count - prev.count else rs.count,
   if prev.lost ≤ rs.lost then rs.lost - prev.lost else rs.lost⟩

/-- Emission log of a normally-continuing `BufStep`; proof-side projection. -/
def BufStep.emsOf : BufStep → Option (List Emission)
  | BufStep.ok acc => some acc.ems
  | _ => none

/-- Monitor state of a normally-continuing `BufStep`; proof-side projection. -/
def BufStep.stateOf : BufStep → Option PBMState
  | BufStep.ok acc => some acc.state
  | _ => none

/-- The sequential drain protocol of the spec's C8 scenario: call
`GetAndResetLostCount(buffer, cpu)` for each CPU index in turn, threading the
monitor state, collecting the returned values. -/
def drainSeq (b : String) : PBMState → List Nat → Option (List Nat × PBMState)
  | s, [] => some ([], s)
  | s, i :: rest =>
    match GetAndResetLostCount s b (i : Int) with
    | none => none
    | some (v, s1) => (drainSeq b s1 rest).map (fun p => (v :: p.1, p.2))

/-- C10: `UnmarshalBinary` is atomic on error — for every buffer shorter
than 24 bytes the receiver keeps its prior `Bytes`, `Count` and `Lost`
values while `NotEnoughData` is returned. -/
theorem c10_unmarshal_atomic_on_error (s : PerfMapStats) (data : List Nat)
    (h : data.length < 24) :
    UnmarshalBinary s data = (s, some ModelError.errNotEnoughData) := by
  simp [UnmarshalBinary, h]

/-- Witness for C10 at a concrete short buffer. -/
theorem c10_unmarshal_atomic_on_error_witness :
    UnmarshalBinary ⟨1, 2, 3⟩ [5, 6, 7] = (⟨1, 2, 3⟩, some ModelError.errNotEnoughData) :=
  c10_unmarshal_atomic_on_error ⟨1, 2, 3⟩ [5, 6, 7] (by decide)

/-- C7: decoding a kernel statistics entry shorter than 24 bytes fails with
`NotEnoughData`; a buffer of length ≥ 24 always succeeds, reading `bytes`
from `data[0:8]`, `count` from `data[8:16]` and `lost` from `data[16:24]` in
the configured byte order, and the result ignores trailing bytes (it equals
the decode of the first 24 bytes). -/
theorem c7_unmarshal_binary (s : PerfMapStats) (data : List Nat) :
    (data.length < 24 → UnmarshalBinary s data = (s, some ModelError.errNotEnoughData)) ∧
    (24 ≤ data.length →
      UnmarshalBinary s data =
        ({ bytes := byteOrderUint64 (data.take 8)
           count := byteOrderUint64 ((data.drop 8).take 8)
           lost := byteOrderUint64 ((data.drop 16).take 8) }, none) ∧
      UnmarshalBinary s data = UnmarshalBinary s (data.take 24)) := by
  constructor
  · intro h
    simp [UnmarshalBinary, h]
  · intro h
    have hlt : ¬ data.length < 24 := not_lt.mpr h
    have htk : (data.take 24).length = 24 := by
      simp [List.length_take]
      omega
    constructor
    · simp [UnmarshalBinary, hlt]
    · simp [UnmarshalBinary, hlt, htk, List.take_take, List.drop_take]

/-- Witness for C7: a 23-byte buffer fails; a 25-byte buffer decodes its
first 24 bytes, ignoring the trailing byte. -/
theorem c7_unmarshal_binary_witness :
    (UnmarshalBinary ⟨0, 0, 0⟩ (List.replicate 23 1) = (⟨0, 0, 0⟩, some ModelError.errNotEnoughData)) ∧
    (UnmarshalBinary ⟨0, 0, 0⟩ (2 :: List.replicate 24 0) =
      ({ bytes := byteOrderUint64 ((2 :: List.replicate 24 0).take 8)
         count := byteOrderUint64 (((2 :: List.replicate 24 0).drop 8).take 8)
         lost := byteOrderUint64 (((2 :: List.replicate 24 0).drop 16).take 8) }, none) ∧
      UnmarshalBinary ⟨0, 0, 0⟩ (2 :: List.replicate 24 0) =
        UnmarshalBinary ⟨0, 0, 0⟩ ((2 :: List.replicate 24 0).take 24)) :=
  ⟨(c7_unmarshal_binary ⟨0, 0, 0⟩ (List.replicate 23 1)).1 (by decide),
   (c7_unmarshal_binary ⟨0, 0, 0⟩ (2 :: List.replicate 24 0)).2 (by decide)⟩

theorem alookup_cons (p : String × α) (m : List (String × α)) (k : String) :
    alookup (p :: m) k = if p.1 = k then some p.2 else alookup m k := by
  by_cases h : p.1 = k <;> simp [alookup, List.find?_cons, h]

theorem aupdate_cons (p : String × α) (m : List (String × α)) (k : String) (f : α → α) :
    aupdate (p :: m) k f = (if p.1 = k then (p.1, f p.2) else p) :: aupdate m k f := rfl

theorem alookup_aupdate_self (m : List (String × α)) (k : String) (f : α → α) :
    alookup (aupdate m k f) k = (alookup m k).map f := by
  induction m with
  | nil => rfl
  | cons p rest ih =>
    by_cases h : p.1 = k
    · simp [aupdate_cons, alookup_cons, h]
    · simp [aupdate_cons, alookup_cons, h, ih]

theorem alookup_aupdate_ne (m : List (String × α)) (k k' : String) (f : α → α) (h : k' ≠ k) :
    alookup (aupdate m k f) k' = alookup m k' := by
  induction m with
  | nil => rfl
  | cons p rest ih =>
    by_cases hp : p.1 = k
    · have hp' : p.1 ≠ k' := by
        rw [hp]
        exact Ne.symm h
      simp [aupdate_cons, alookup_cons, hp, hp', Ne.symm h, ih]
    · simp [aupdate_cons, alookup_cons, hp, ih]

theorem lupdate_length (l : List α) (i : Nat) (f : α → α) :
    (lupdate l i f).length = l.length := by
  unfold lupdate
  cases h : l.get? i <;> simp

theorem lupdate_getD_self (l : List α) (i : Nat) (f : α → α) (d : α) (h : i < l.length) :
    (lupdate l i f).getD i d = f (l.getD i d) := by
  unfold lupdate
  have hg : l.get? i = some l[i] := by
    simp [List.get?_eq_getElem?, List.getElem?_eq_getElem h]
  rw [hg]
  simp [List.getD_eq_getElem?_getD, List.getElem?_set_eq_of_lt _ (by simpa using h),
    List.getElem?_eq_getElem h]

theorem lupdate_getD_ne (l : List α) (i j : Nat) (f : α → α) (d : α) (h : j ≠ i) :
    (lupdate l i f).getD j d = l.getD j d := by
  unfold lupdate
  cases hg : l.get? i with
  | none => rfl
  | some x =>
    simp [List.getD_eq_getElem?_getD, List.getElem?_set_ne (Ne.symm h)]

theorem wrapI64_of_bounds (x : Int) (hlo : -(2 ^ 63) ≤ x) (hhi : x < 2 ^ 63) :
    wrapI64 x = x := by
  unfold wrapI64
  have h1 : 0 ≤ x + 2 ^ 63 := by omega
  have h2 : x + 2 ^ 63 < 2 ^ 64 := by omega
  rw [Int.emod_eq_of_lt h1 h2]
  omega

/-- C2 (counterexample): with buffer `"dns"` registered on 2 CPUs, a
`CountEvent` call with the out-of-range CPU index 99 still modifies monitor
state — the timestamp watermark advances from 0 to 5 — so the call is not
the claimed complete no-op. -/
theorem c2_countEvent_counterexample :
    CountEvent (initState ["dns"] 2) 1 5 1 10 "dns" 99 =
      some { initState ["dns"] 2 with lastTimestamp := 5 } ∧
    ({ initState ["dns"] 2 with lastTimestamp := 5 } : PBMState) ≠ initState ["dns"] 2 := by
  constructor
  · rfl
  · decide

/-- C2 (amended): a `CountEvent` call with an out-of-range CPU index on a
registered buffer with an in-range event type never panics and never touches
the two grids or the lost counters, but the ordering check still runs first:
on an out-of-order timestamp the sorting-error counter of
`(bufferName, eventType)` is incremented by one in wrap-around `int64`
arithmetic and the generation flag is set to 1, the watermark unchanged;
otherwise the watermark advances to the call's timestamp. A call with an
*unregistered* buffer name whose timestamp is below a non-zero watermark
panics (nil `*int64` passed to `atomic.AddInt64`) instead of being a silent
no-op. -/
theorem c2_countEvent_out_of_range (s : PBMState) (et ts c sz : Nat) (b : String) (cpu : Int)
    (arr : List Int) (rows : List (List PerfMapStats))
    (harr : alookup s.sortingErrorStats b = some arr) (het : et < arr.length)
    (hrows : alookupD s.stats b = rows) (hne : rows ≠ [])
    (hcpu : (rows.length : Int) ≤ cpu) :
    (∃ s', CountEvent s et ts c sz b cpu = some s' ∧
      s'.stats = s.stats ∧ s'.kernelStats = s.kernelStats ∧
      s'.readLostEvents = s.readLostEvents ∧
      ((ts < s.lastTimestamp ∧ s.lastTimestamp ≠ 0) →
        s' = { s with
          sortingErrorStats := aupdate s.sortingErrorStats b (fun a => lupdate a et (fun x => wrapI64 (x + 1)))
          shouldBumpGeneration := 1 } ∧
        sortingCellD s' b et = wrapI64 (sortingCellD s b et + 1) ∧
        s'.lastTimestamp = s.lastTimestamp ∧ s'.shouldBumpGeneration = 1) ∧
      (¬ (ts < s.lastTimestamp ∧ s.lastTimestamp ≠ 0) →
        s' = { s with lastTimestamp := ts })) ∧
    (∀ b', alookup s.sortingErrorStats b' = none →
      ts < s.lastTimestamp → s.lastTimestamp ≠ 0 →
      CountEvent s et ts c sz b' cpu = none) := by
  constructor
  · by_cases hord : ts < s.lastTimestamp ∧ s.lastTimestamp ≠ 0
    · have hcell0 : sortingCellD s b et = arr.getD et 0 := by
        simp [sortingCellD, alookupD, harr, List.getD_eq_getElem?_getD]
      have hstep1 : alookup (aupdate s.sortingErrorStats b (fun a => lupdate a et (fun x => wrapI64 (x + 1)))) b
          = some (lupdate arr et (fun x => wrapI64 (x + 1))) := by
        rw [alookup_aupdate_self, harr]
        rfl
      have hcell1 : sortingCellD
          { s with
            sortingErrorStats := aupdate s.sortingErrorStats b (fun a => lupdate a et (fun x => wrapI64 (x + 1)))
            shouldBumpGeneration := 1 } b et = wrapI64 (arr.getD et 0 + 1) := by
        show ((alookup (aupdate s.sortingErrorStats b (fun a => lupdate a et (fun x => wrapI64 (x + 1)))) b).getD []).getD et 0 = _
        rw [hstep1]
        exact lupdate_getD_self arr et _ 0 het
      refine ⟨{ s with
          sortingErrorStats := aupdate s.sortingErrorStats b (fun a => lupdate a et (fun x => wrapI64 (x + 1)))
          shouldBumpGeneration := 1 }, ?_, rfl, rfl, rfl,
        fun _ => ⟨rfl, by rw [hcell1, hcell0], rfl, rfl⟩, fun hn => absurd hord hn⟩
      simp [CountEvent, hord, harr, het, hrows, hne, hcpu]
    · refine ⟨{ s with lastTimestamp := ts }, ?_, rfl, rfl, rfl,
        fun hc => absurd hc hord, fun _ => rfl⟩
      simp [CountEvent, hord, hrows, hne, hcpu]
  · intro b' hb' hts hnz
    simp [CountEvent, hb', hts, hnz]

/-- Witness for C2 (amended): both conjuncts at concrete inputs — an
out-of-range CPU (99 of 2) on registered `"dns"` with an out-of-order
timestamp, where the sorting counter is incremented and the flag raised, and
an unregistered name `"x"` with an out-of-order timestamp on a monitor whose
watermark is 7. -/
theorem c2_countEvent_out_of_range_witness :
    (∃ s', CountEvent { initState ["dns"] 2 with lastTimestamp := 7 } 1 3 1 10 "dns" 99 = some s' ∧
      s'.stats = (initState ["dns"] 2).stats ∧
      s'.kernelStats = (initState ["dns"] 2).kernelStats ∧
      s'.readLostEvents = (initState ["dns"] 2).readLostEvents ∧
      sortingCellD s' "dns" 1
        = wrapI64 (sortingCellD { initState ["dns"] 2 with lastTimestamp := 7 } "dns" 1 + 1) ∧
      s'.lastTimestamp = 7 ∧ s'.shouldBumpGeneration = 1) ∧
    CountEvent { initState ["dns"] 2 with lastTimestamp := 7 } 1 3 1 10 "x" 0 = none := by
  have h := c2_countEvent_out_of_range { initState ["dns"] 2 with lastTimestamp := 7 } 1 3 1 10 "dns" 99
    (List.replicate MaxEventType 0) (initGrid 2) (by rfl) (by decide) (by rfl) (by decide) (by decide)
  refine ⟨?_, h.2 "x" (by rfl) (by decide) (by decide)⟩
  obtain ⟨s', hev, hst, hk, hr, hord, _⟩ := h.1
  obtain ⟨_, hcell, hlt, hflag⟩ := hord ⟨by decide, by decide⟩
  exact ⟨s', hev, hst, hk, hr, hcell, hlt, hflag⟩

/-- C5: for a `CountEvent` call on a registered buffer with in-range
indices, an out-of-order timestamp (`timestamp < lastTimestamp` with a
non-zero watermark) increments the sorting-error counter of
`(bufferName, eventType)` by exactly 1, sets the generation flag to 1 and
leaves the watermark unchanged; otherwise the sorting-error counters and the
flag are untouched and the watermark advances to the call's timestamp. -/
theorem c5_countEvent_ordering (s : PBMState) (et ts c sz : Nat) (b : String) (cpu : Int)
    (arr : List Int) (rows : List (List PerfMapStats))
    (harr : alookup s.sortingErrorStats b = some arr) (het : et < arr.length)
    (hrows : alookupD s.stats b = rows) (hne : rows ≠ [])
    (hcpu0 : 0 ≤ cpu) (hcpuL : cpu < (rows.length : Int))
    (hrow : et < (rows.getD cpu.toNat []).length)
    (hlo : -(2 ^ 63) ≤ sortingCellD s b et) (hhi : sortingCellD s b et + 1 < 2 ^ 63) :
    ((ts < s.lastTimestamp ∧ s.lastTimestamp ≠ 0) →
      ∃ s', CountEvent s et ts c sz b cpu = some s' ∧
        sortingCellD s' b et = sortingCellD s b et + 1 ∧
        s'.shouldBumpGeneration = 1 ∧
        s'.lastTimestamp = s.lastTimestamp) ∧
    (¬ (ts < s.lastTimestamp ∧ s.lastTimestamp ≠ 0) →
      ∃ s', CountEvent s et ts c sz b cpu = some s' ∧
        s'.sortingErrorStats = s.sortingErrorStats ∧
        s'.shouldBumpGeneration = s.shouldBumpGeneration ∧
        s'.lastTimestamp = ts) := by
  have h1 : ¬ ((rows.length : Int) ≤ cpu) := not_le.mpr hcpuL
  have h2 : ¬ cpu < 0 := not_lt.mpr hcpu0
  have h3 : ¬ ((rows.getD cpu.toNat []).length ≤ et) := not_le.mpr hrow
  have h3' : ¬ ((rows[cpu.toNat]?.getD []).length ≤ et) := by
    simpa [List.getD_eq_getElem?_getD] using h3
  have hcell : sortingCellD s b et = arr.getD et 0 := by
    simp [sortingCellD, alookupD, harr, List.getD_eq_getElem?_getD]
  constructor
  · intro hord
    refine ⟨{ s with
        sortingErrorStats := aupdate s.sortingErrorStats b (fun a => lupdate a et (fun x => wrapI64 (x + 1)))
        shouldBumpGeneration := 1
        stats := aupdate s.stats b (fun rs => lupdate rs cpu.toNat (fun r => lupdate r et
          (fun cell => { cell with count := addU64 cell.count c, bytes := addU64 cell.bytes sz }))) },
      ?_, ?_, rfl, rfl⟩
    · simp [CountEvent, hord, harr, het, hrows, hne, h1, h2, h3']
    · have step : alookup (aupdate s.sortingErrorStats b (fun a => lupdate a et (fun x => wrapI64 (x + 1)))) b
          = some (lupdate arr et (fun x => wrapI64 (x + 1))) := by
        rw [alookup_aupdate_self, harr]
        rfl
      have harr2 : sortingCellD
          { s with
            sortingErrorStats := aupdate s.sortingErrorStats b (fun a => lupdate a et (fun x => wrapI64 (x + 1)))
            shouldBumpGeneration := 1
            stats := aupdate s.stats b (fun rs => lupdate rs cpu.toNat (fun r => lupdate r et
              (fun cell => { cell with count := addU64 cell.count c, bytes := addU64 cell.bytes sz }))) }
          b et = wrapI64 (arr.getD et 0 + 1) := by
        show ((alookup (aupdate s.sortingErrorStats b (fun a => lupdate a et (fun x => wrapI64 (x + 1)))) b).getD []).getD et 0 = _
        rw [step]
        exact lupdate_getD_self arr et _ 0 het
      rw [harr2, hcell]
      exact wrapI64_of_bounds _ (by rw [hcell] at hlo; omega) (by rw [hcell] at hhi; omega)
  · intro hord
    refine ⟨{ s with
        lastTimestamp := ts
        stats := aupdate s.stats b (fun rs => lupdate rs cpu.toNat (fun r => lupdate r et
          (fun cell => { cell with count := addU64 cell.count c, bytes := addU64 cell.bytes sz }))) },
      ?_, rfl, rfl, rfl⟩
    simp [CountEvent, hord, hrows, hne, h1, h2, h3']

/-- Witness for C5: on a monitor with watermark 7 and buffer `"dns"`, a call
with timestamp 3 bumps the `(dns, 1)` sorting counter from 0 to 1, sets the
flag and keeps the watermark; a call with timestamp 9 leaves the counters
alone and advances the watermark to 9. -/
theorem c5_countEvent_ordering_witness :
    (∃ s', CountEvent { initState ["dns"] 2 with lastTimestamp := 7 } 1 3 2 10 "dns" 0 = some s' ∧
      sortingCellD s' "dns" 1 = sortingCellD { initState ["dns"] 2 with lastTimestamp := 7 } "dns" 1 + 1 ∧
      s'.shouldBumpGeneration = 1 ∧
      s'.lastTimestamp = { initState ["dns"] 2 with lastTimestamp := 7 }.lastTimestamp) ∧
    (∃ s', CountEvent { initState ["dns"] 2 with lastTimestamp := 7 } 1 9 2 10 "dns" 0 = some s' ∧
      s'.sortingErrorStats = { initState ["dns"] 2 with lastTimestamp := 7 }.sortingErrorStats ∧
      s'.shouldBumpGeneration = { initState ["dns"] 2 with lastTimestamp := 7 }.shouldBumpGeneration ∧
      s'.lastTimestamp = 9) :=
  ⟨(c5_countEvent_ordering { initState ["dns"] 2 with lastTimestamp := 7 } 1 3 2 10 "dns" 0
      (List.replicate MaxEventType 0) (initGrid 2) (by rfl) (by decide) (by rfl) (by decide)
      (by decide) (by decide) (by decide) (by decide) (by decide)).1 ⟨by decide, by decide⟩,
   (c5_countEvent_ordering { initState ["dns"] 2 with lastTimestamp := 7 } 1 9 2 10 "dns" 0
      (List.replicate MaxEventType 0) (initGrid 2) (by rfl) (by decide) (by rfl) (by decide)
      (by decide) (by decide) (by decide) (by decide) (by decide)).2 (by decide)⟩

theorem getD_map_range (l : List Nat) :
    (List.range l.length).map (fun i => l.getD i 0) = l := by
  induction l with
  | nil => rfl
  | cons a t ih =>
    rw [List.length_cons, List.range_succ_eq_map, List.map_cons, List.map_map]
    have hc : ((fun i => (a :: t).getD i 0) ∘ Nat.succ) = fun i => t.getD i 0 := by
      funext i
      simp [List.getD_cons_succ]
    rw [hc, ih]
    simp

theorem drainSeq_go (b : String) :
    ∀ (n k : Nat) (s : PBMState) (l : List Nat),
      alookup s.readLostEvents b = some l → s.numCPU = l.length → k + n = l.length →
      ∃ s', drainSeq b s (List.range' k n) =
        some ((List.range' k n).map (fun i => l.getD i 0), s') := by
  intro n
  induction n with
  | zero =>
    intro k s l _ _ _
    exact ⟨s, rfl⟩
  | succ n ih =>
    intro k s l hl hn hk
    have hkl : k < l.length := by omega
    have hne1 : ¬ ((k : Int) = -1) := by omega
    have hc1 : (0 : Int) ≤ (k : Int) ∧ (k : Int) < (s.numCPU : Int) := by omega
    have hget : l.get? ((k : Int).toNat) = some l[k] := by
      simp [List.get?_eq_getElem?, List.getElem?_eq_getElem hkl]
    have hstep : GetAndResetLostCount s b (k : Int) =
        some (l[k], { s with readLostEvents := aupdate s.readLostEvents b (fun a => lupdate a (k : Int).toNat (fun _ => 0)) }) := by
      simp only [GetAndResetLostCount, alookupD, hl, Option.getD_some]
      rw [if_neg hne1, if_pos hc1, hget]
    have hl1 : alookup (aupdate s.readLostEvents b (fun a => lupdate a (k : Int).toNat (fun _ => 0))) b
        = some (lupdate l (k : Int).toNat (fun _ => 0)) := by
      rw [alookup_aupdate_self, hl]
      rfl
    have hn1 : s.numCPU = (lupdate l (k : Int).toNat (fun _ => 0)).length := by
      rw [lupdate_length]
      exact hn
    obtain ⟨s', hrec⟩ := ih (k + 1)
      { s with readLostEvents := aupdate s.readLostEvents b (fun a => lupdate a (k : Int).toNat (fun _ => 0)) }
      (lupdate l (k : Int).toNat (fun _ => 0)) hl1 hn1
      (by rw [lupdate_length]; omega)
    refine ⟨s', ?_⟩
    rw [List.range'_succ]
    show (match GetAndResetLostCount s b (k : Int) with
      | none => none
      | some (v, s1) => (drainSeq b s1 (List.range' (k + 1) n)).map (fun p : List Nat × PBMState => (v :: p.1, p.2)))
      = _
    rw [hstep]
    dsimp only
    rw [hrec]
    simp only [Option.map_some']
    have hmap : (List.range' (k + 1) n).map (fun i => (lupdate l (k : Int).toNat (fun _ => 0)).getD i 0)
        = (List.range' (k + 1) n).map (fun i => l.getD i 0) := by
      apply List.map_congr_left
      intro i hi
      have hmem := List.mem_range'.mp hi
      exact lupdate_getD_ne l (k : Int).toNat i _ 0 (by omega)
    rw [hmap]
    have hhead : l.getD k 0 = l[k] := by
      simp [List.getD_eq_getElem?_getD, List.getElem?_eq_getElem hkl]
    rw [List.map_cons, hhead]

/-- C8: `GetAndResetLostCount` is a drain — after `CountLostEvent(4, dns, 0)`
then `CountLostEvent(2, dns, 0)`, draining `(dns, 0)` returns 6 and an
immediately subsequent drain returns 0; and for any registered buffer the
aggregate drain `GetAndResetLostCount(buffer, -1)` equals the `uint64` sum of
the per-CPU drains run sequentially beforehand. -/
theorem c8_getAndResetLostCount :
    ((CountLostEvent (initState ["dns"] 2) 4 "dns" 0).bind (fun s1 =>
      (CountLostEvent s1 2 "dns" 0).bind (fun s2 =>
        (GetAndResetLostCount s2 "dns" 0).bind (fun p =>
          (GetAndResetLostCount p.2 "dns" 0).map (fun q => (p.1, q.1))))))
      = some (6, 0) ∧
    (∀ (s : PBMState) (b : String) (l : List Nat),
      alookup s.readLostEvents b = some l → s.numCPU = l.length →
      ∃ vals s' v s'',
        drainSeq b s (List.range s.numCPU) = some (vals, s') ∧
        GetAndResetLostCount s b (-1) = some (v, s'') ∧
        v = vals.foldl addU64 0) := by
  constructor
  · rfl
  · intro s b l hl hn
    obtain ⟨s', hds⟩ := drainSeq_go b s.numCPU 0 s l hl hn (by omega)
    have hv : (List.range' 0 s.numCPU).map (fun i => l.getD i 0) = l := by
      rw [hn, ← List.range_eq_range']
      exact getD_map_range l
    refine ⟨l, s', l.foldl addU64 0,
      { s with readLostEvents := aupdate s.readLostEvents b (fun a => a.map (fun _ => 0)) },
      ?_, ?_, rfl⟩
    · rw [List.range_eq_range', hds, hv]
    · simp [GetAndResetLostCount, alookupD, hl]

/-- Witness for C8's general conjunct: the aggregate drain on a fresh
two-CPU monitor for buffer `"dns"`. -/
theorem c8_getAndResetLostCount_witness :
    ∃ vals s' v s'',
      drainSeq "dns" (initState ["dns"] 2) (List.range (initState ["dns"] 2).numCPU) = some (vals, s') ∧
      GetAndResetLostCount (initState ["dns"] 2) "dns" (-1) = some (v, s'') ∧
      v = vals.foldl addU64 0 :=
  c8_getAndResetLostCount.2 (initState ["dns"] 2) "dns" (List.replicate 2 0) (by rfl) (by decide)

theorem cell_after_aupdate (m : List (String × List (List PerfMapStats))) (b : String) (cpu et : Nat)
    (ks : List (List PerfMapStats)) (krow : List PerfMapStats) (v : PerfMapStats)
    (hks : alookup m b = some ks) (h1 : ks.get? cpu = some krow) (h2 : et < krow.length) :
    (((alookup (aupdate m b (fun kr => lupdate kr cpu (fun r => lupdate r et (fun _ => v)))) b).getD []).getD cpu []).getD et zeroStats = v := by
  have hcpu : cpu < ks.length := by
    by_contra hcon
    rw [List.get?_eq_none.mpr (not_lt.mp hcon)] at h1
    exact absurd h1 (by simp)
  have hgd : ks.getD cpu [] = krow := by
    rw [List.getD_eq_getElem?_getD, ← List.get?_eq_getElem?, h1]
    rfl
  rw [alookup_aupdate_self, hks]
  simp only [Option.map_some', Option.getD_some]
  rw [lupdate_getD_self _ _ _ _ hcpu, hgd, lupdate_getD_self _ _ _ _ h2]

/-- C4 (evaluation at the failing input): on a two-CPU monitor with buffer
`"dns"` whose CPU0 cell for event type 3 is (count 5, bytes 500) and CPU1
cell is (count 3, bytes 300), `GetEventStats(3, "dns", -1)` returns the
aggregate `{count 8, bytes 800}` as specified, but `GetEventStats(3, "", -1)`
— the all-buffers aggregate — panics (the loop body indexes
`pbm.stats[perfMap]` with the empty parameter instead of the loop variable
`m`, dereferencing a nil slice) instead of returning the same aggregate. -/
theorem c4_getEventStats_eval :
    GetEventStats (withStatsCell (withStatsCell (initState ["dns"] 2) "dns" 0 3 ⟨500, 5, 0⟩)
        "dns" 1 3 ⟨300, 3, 0⟩) 3 "dns" (-1) = some ⟨800, 8, 0⟩ ∧
    GetEventStats (withStatsCell (withStatsCell (initState ["dns"] 2) "dns" 0 3 ⟨500, 5, 0⟩)
        "dns" 1 3 ⟨300, 3, 0⟩) 3 "" (-1) = none :=
  ⟨rfl, rfl⟩

/-- C9 (evaluation at the failing input): buffer `"dns"`, one CPU, kernel
grid holding `Lost = 7` for the rename event type with empty kernel tables.
The empty filter correctly sums everything (7), but the filter list
`[FileRenameEventType]` yields 0 — the loop ranges over the *indices* of the
filter slice, so only event type 0 is matched — instead of the 7 the claim
requires for the named event type. -/
theorem c9_getAndResetKernelLostCount_eval :
    (GetAndResetKernelLostCount (withKernelCell (initState ["dns"] 1) "dns" 0 FileRenameEventType ⟨0, 0, 7⟩)
        (fun _ => ⟨[], false⟩) "dns" (-1) [FileRenameEventType]).map Prod.fst = some 0 ∧
    (GetAndResetKernelLostCount (withKernelCell (initState ["dns"] 1) "dns" 0 FileRenameEventType ⟨0, 0, 7⟩)
        (fun _ => ⟨[], false⟩) "dns" (-1) []).map Prod.fst = some 7 ∧
    kernelCellD (withKernelCell (initState ["dns"] 1) "dns" 0 FileRenameEventType ⟨0, 0, 7⟩)
        "dns" 0 FileRenameEventType = ⟨0, 0, 7⟩ :=
  ⟨rfl, rfl, rfl⟩

/-- C1 (counterexample): one buffer, one CPU, previous kernel snapshot
`bytes = 10`, newly read kernel value `bytes = 3` (an apparent decrease).
The reconciler emits a bytes-write delta of 3 — the raw new value — not the
0 the claim requires. -/
theorem c1_delta_counterexample :
    kernelCellD (withKernelCell (initState ["dns"] 1) "dns" 0 1 ⟨10, 0, 0⟩) "dns" 0 1 = ⟨10, 0, 0⟩ ∧
    collectAndSendKernelStats (withKernelCell (initState ["dns"] 1) "dns" 0 1 ⟨10, 0, 0⟩) true
        (fun b => if b = "dns" then ⟨[(1, [⟨3, 0, 0⟩])], false⟩ else ⟨[], false⟩)
      = CollectOut.done (withKernelCell (initState ["dns"] 1) "dns" 0 1 ⟨3, 0, 0⟩)
          [⟨MetricPerfBufferBytesWrite, 3, "dns", 1⟩] [] none ∧
    (3 : Int) ≠ 0 :=
  ⟨rfl, rfl, by decide⟩

/-- C1 (amended): for every reconciler cell step on in-range coordinates,
the stored kernel snapshot becomes the newly read value and the delta is,
per field, `new - previous` when `previous <= new` and the *raw new value*
(not zero) when the kernel counter appears to have decreased; in both cases
the delta is bounded by the new value, so the `uint64` subtraction never
underflows. The statsd emission guards each field on the raw `uint64` and
sends its `int64` cast, which is negative for deltas of `2^63` or more. -/
theorem c1_reconciler_delta (client : Bool) (b : String) (et cpu : Nat) (rs prev : PerfMapStats)
    (acc : BufAcc) (rows : List (List PerfMapStats)) (ks : List (List PerfMapStats)) (krow : List PerfMapStats)
    (hrows : alookupD acc.state.stats b = rows) (hne : rows ≠ [])
    (hcpu : cpu < rows.length) (het : et < (rows.getD cpu []).length)
    (hks : alookup acc.state.kernelStats b = some ks)
    (hk1 : ks.get? cpu = some krow) (hk2 : krow.get? et = some prev) :
    ((stepCell client b et cpu rs acc).emsOf =
      some (acc.ems ++ (if client then sendKernelStatsEms (reconDelta prev rs) b et else []))) ∧
    ((stepCell client b et cpu rs acc).stateOf.map (fun st => kernelCellD st b cpu et) = some rs) ∧
    (reconDelta prev rs).bytes ≤ rs.bytes ∧
    (reconDelta prev rs).count ≤ rs.count ∧
    (reconDelta prev rs).lost ≤ rs.lost ∧
    (prev.bytes ≤ rs.bytes → (reconDelta prev rs).bytes = rs.bytes - prev.bytes) ∧
    (rs.bytes < prev.bytes → (reconDelta prev rs).bytes = rs.bytes) ∧
    (prev.count ≤ rs.count → (reconDelta prev rs).count = rs.count - prev.count) ∧
    (rs.count < prev.count → (reconDelta prev rs).count = rs.count) ∧
    (prev.lost ≤ rs.lost → (reconDelta prev rs).lost = rs.lost - prev.lost) ∧
    (rs.lost < prev.lost → (reconDelta prev rs).lost = rs.lost) := by
  have hg2 : ¬ (rows.length ≤ cpu) := not_le.mpr hcpu
  have hg3 : ¬ ((rows.getD cpu []).length ≤ et) := not_le.mpr het
  have het2 : et < krow.length := by
    by_contra hcon
    rw [List.get?_eq_none.mpr (not_lt.mp hcon)] at hk2
    exact absurd hk2 (by simp)
  have hcell := cell_after_aupdate acc.state.kernelStats b cpu et ks krow rs hks hk1 het2
  have hguard : ¬ (alookupD acc.state.stats b = [] ∨ (alookupD acc.state.stats b).length ≤ cpu ∨
      ((alookupD acc.state.stats b).getD cpu []).length ≤ et) := by
    rw [hrows]
    rintro (h | h | h)
    exacts [hne h, hg2 h, hg3 h]
  have hksD : alookupD acc.state.kernelStats b = ks := by
    simp [alookupD, hks]
  have hstep : stepCell client b et cpu rs acc = BufStep.ok
      ⟨(if et = FileRenameEventType ∨ et = FileUnlinkEventType ∨ et = FileRmdirEventType
          then { acc.state with
                  kernelStats := aupdate acc.state.kernelStats b (fun kr => lupdate kr cpu (fun r => lupdate r et (fun _ => rs)))
                  shouldBumpGeneration := 1 }
          else { acc.state with
                  kernelStats := aupdate acc.state.kernelStats b (fun kr => lupdate kr cpu (fun r => lupdate r et (fun _ => rs))) }),
       (if client then acc.ems ++ sendKernelStatsEms (reconDelta prev rs) b et else acc.ems),
       addU64 acc.total (reconDelta prev rs).lost,
       perEventAdd (perEventInit acc.perEvent et) et (reconDelta prev rs).lost⟩ := by
    simp only [stepCell]
    rw [if_neg hguard, hksD, hk1]
    dsimp only
    rw [hk2]
    rfl
  refine ⟨?_, ?_, ?_, ?_, ?_, fun h => by simp [reconDelta, h], fun h => by simp [reconDelta, not_le.mpr h],
    fun h => by simp [reconDelta, h], fun h => by simp [reconDelta, not_le.mpr h],
    fun h => by simp [reconDelta, h], fun h => by simp [reconDelta, not_le.mpr h]⟩
  · rw [hstep]
    cases client <;> simp [BufStep.emsOf]
  · rw [hstep]
    simp only [BufStep.stateOf, Option.map_some', Option.some.injEq]
    by_cases hmut : et = FileRenameEventType ∨ et = FileUnlinkEventType ∨ et = FileRmdirEventType
    · rw [if_pos hmut]
      simp only [kernelCellD, alookupD]
      exact hcell
    · rw [if_neg hmut]
      simp only [kernelCellD, alookupD]
      exact hcell
  · simp only [reconDelta]
    split <;> omega
  · simp only [reconDelta]
    split <;> omega
  · simp only [reconDelta]
    split <;> omega

/-- Witness for C1 (amended) at the counterexample coordinates: previous
snapshot bytes 10, new value bytes 3. -/
theorem c1_reconciler_delta_witness :
    ((stepCell true "dns" 1 0 ⟨3, 0, 0⟩ ⟨withKernelCell (initState ["dns"] 1) "dns" 0 1 ⟨10, 0, 0⟩, [], 0, []⟩).emsOf =
      some ([] ++ (if true then sendKernelStatsEms (reconDelta ⟨10, 0, 0⟩ ⟨3, 0, 0⟩) "dns" 1 else []))) ∧
    ((3 : Nat) < 10 → (reconDelta (⟨10, 0, 0⟩ : PerfMapStats) ⟨3, 0, 0⟩).bytes = 3) :=
  ⟨(c1_reconciler_delta true "dns" 1 0 ⟨3, 0, 0⟩ ⟨10, 0, 0⟩
      ⟨withKernelCell (initState ["dns"] 1) "dns" 0 1 ⟨10, 0, 0⟩, [], 0, []⟩
      (initGrid 1) (alookupD (withKernelCell (initState ["dns"] 1) "dns" 0 1 ⟨10, 0, 0⟩).kernelStats "dns")
      ((alookupD (withKernelCell (initState ["dns"] 1) "dns" 0 1 ⟨10, 0, 0⟩).kernelStats "dns").getD 0 [])
      (by rfl) (by decide) (by decide) (by decide) (by rfl) (by rfl) (by rfl)).1,
   (c1_reconciler_delta true "dns" 1 0 ⟨3, 0, 0⟩ ⟨10, 0, 0⟩
      ⟨withKernelCell (initState ["dns"] 1) "dns" 0 1 ⟨10, 0, 0⟩, [], 0, []⟩
      (initGrid 1) (alookupD (withKernelCell (initState ["dns"] 1) "dns" 0 1 ⟨10, 0, 0⟩).kernelStats "dns")
      ((alookupD (withKernelCell (initState ["dns"] 1) "dns" 0 1 ⟨10, 0, 0⟩).kernelStats "dns").getD 0 [])
      (by rfl) (by decide) (by decide) (by decide) (by rfl) (by rfl) (by rfl)).2.2.2.2.2.2.1⟩

/-- C3 (counterexample): two registered buffers `"a"`, `"b"`; `"a"`'s kernel
table iteration fails while `"b"`'s table holds a live entry. The
reconciliation cycle returns the wrapped error after `"a"` and never
processes `"b"`: no emission happens and `"b"`'s kernel grid cell stays
zero, contradicting "the reconciler still processes every other registered
buffer's statistics table in the same cycle". -/
theorem c3_iter_failure_counterexample :
    collectAndSendKernelStats (initState ["a", "b"] 1) true
        (fun b => if b = "a" then ⟨[], true⟩ else ⟨[(1, [⟨5, 5, 5⟩])], false⟩)
      = CollectOut.done (initState ["a", "b"] 1) [] []
          (some "failed to dump the statistics buffer of map a") ∧
    kernelCellD (initState ["a", "b"] 1) "b" 0 1 = zeroStats :=
  ⟨rfl, rfl⟩

/-- C3 (amended): when the kernel-table iteration of a buffer reports an
error, `collectAndSendKernelStats` returns the wrapped error immediately:
the failing buffer's already-iterated entries keep their effects, the error
is surfaced as a non-fatal return value, and every buffer later in the
iteration order is left unprocessed for that cycle — the result does not
depend on `rest` at all. -/
theorem c3_iter_failure_aborts_cycle (client : Bool) (tables : String → KernelTable)
    (s : PBMState) (b : String) (rest : List String) (acc : BufAcc)
    (hmaps : s.perfBufferStatsMaps = b :: rest)
    (herr : (tables b).iterErr = true)
    (hok : stepEntries client b (tables b).entries ⟨s, [], 0, []⟩ = BufStep.ok acc) :
    collectAndSendKernelStats s client tables
      = CollectOut.done acc.state acc.ems []
          (some ("failed to dump the statistics buffer of map " ++ b)) := by
  unfold collectAndSendKernelStats
  rw [hmaps]
  simp [collectLoop, hok, herr]

/-- Witness for C3 (amended): the two-buffer counterexample configuration,
with `"b"` explicitly present in `rest` yet unprocessed. -/
theorem c3_iter_failure_aborts_cycle_witness :
    collectAndSendKernelStats (initState ["a", "b"] 1) true
        (fun b => if b = "a" then ⟨[], true⟩ else ⟨[(1, [⟨5, 5, 5⟩])], false⟩)
      = CollectOut.done (initState ["a", "b"] 1) [] []
          (some ("failed to dump the statistics buffer of map " ++ "a")) :=
  c3_iter_failure_aborts_cycle true
    (fun b => if b = "a" then ⟨[], true⟩ else ⟨[(1, [⟨5, 5, 5⟩])], false⟩)
    (initState ["a", "b"] 1) "a" ["b"] ⟨initState ["a", "b"] 1, [], 0, []⟩
    (by rfl) (by rfl) (by rfl)

theorem foldO_preserve {α β : Type} (f : α → β → Option β) (P : β → Prop)
    (hf : ∀ a x y, f a x = some y → P x → P y) :
    ∀ (l : List α) (x y : β), foldO f l x = some y → P x → P y := by
  intro l
  induction l with
  | nil =>
    intro x y h hx
    simp only [foldO] at h
    cases h
    exact hx
  | cons a rest ih =>
    intro x y h hx
    simp only [foldO] at h
    cases hfa : f a x with
    | none =>
      rw [hfa] at h
      exact absurd h (by simp)
    | some z =>
      rw [hfa] at h
      exact ih z y h (hf a x z hfa hx)

theorem drainOneCell_flag (m : String) (cpu et : Nat) (s : PBMState) (ems : List Emission)
    (p : PBMState × List Emission) (h : drainOneCell m cpu et s ems = some p) :
    p.1.shouldBumpGeneration = s.shouldBumpGeneration := by
  simp only [drainOneCell, withStatsCell] at h
  cases harr : alookup s.sortingErrorStats m with
  | none =>
    rw [harr] at h
    exact absurd h (by simp)
  | some arr =>
    rw [harr] at h
    dsimp only at h
    cases hret : arr.get? et with
    | none =>
      rw [hret] at h
      exact absurd h (by simp)
    | some v =>
      rw [hret] at h
      dsimp only at h
      cases h
      rfl

theorem sendEventsAndBytesReadStats_flag (s : PBMState) (p : PBMState × List Emission)
    (h : sendEventsAndBytesReadStats s = some p) :
    p.1.shouldBumpGeneration = s.shouldBumpGeneration := by
  unfold sendEventsAndBytesReadStats at h
  refine foldO_preserve _ (fun acc => acc.1.shouldBumpGeneration = s.shouldBumpGeneration) ?_ _ _ _ h rfl
  intro m x y hxy hx
  refine foldO_preserve _ (fun acc => acc.1.shouldBumpGeneration = s.shouldBumpGeneration) ?_ _ _ _ hxy hx
  intro cpu x1 y1 hxy1 hx1
  refine foldO_preserve _ (fun acc => acc.1.shouldBumpGeneration = s.shouldBumpGeneration) ?_ _ _ _ hxy1 hx1
  intro et x2 y2 hxy2 hx2
  rw [drainOneCell_flag m cpu et x2.1 x2.2 y2 hxy2]
  exact hx2

theorem foldl_flag_preserve {α : Type}
    (f : (PBMState × List Emission × List (String × Nat)) → α → (PBMState × List Emission × List (String × Nat)))
    (hf : ∀ x a, (f x a).1.shouldBumpGeneration = x.1.shouldBumpGeneration) :
    ∀ (l : List α) (x : PBMState × List Emission × List (String × Nat)),
      (l.foldl f x).1.shouldBumpGeneration = x.1.shouldBumpGeneration := by
  intro l
  induction l with
  | nil => intro x; rfl
  | cons a rest ih =>
    intro x
    rw [List.foldl_cons, ih, hf]

theorem sendLostEventsReadStats_flag (s : PBMState) :
    (sendLostEventsReadStats s).1.shouldBumpGeneration = s.shouldBumpGeneration := by
  unfold sendLostEventsReadStats
  apply foldl_flag_preserve
  intro x a
  rfl

/-- C6 (counterexample): a `SendStats` cycle whose kernel reconciliation
fails (iterator error) while the generation flag is 1 returns the error
without clearing the flag and without calling `BumpCacheGenerations` —
contradicting "every SendStats cycle reads and clears the Generation Flag
... and calls the cache-invalidation collaborator iff the flag's prior value
was 1". -/
theorem c6_sendStats_counterexample :
    SendStats { initState ["a"] 1 with shouldBumpGeneration := 1 } (fun _ => ⟨[], true⟩)
      = some ⟨{ initState ["a"] 1 with shouldBumpGeneration := 1 }, [], [], [],
          false, some "failed to dump the statistics buffer of map a"⟩ ∧
    (1 : Nat) ≠ 0 :=
  ⟨rfl, by decide⟩

/-- C6 (amended): when kernel reconciliation completes without error (and
the read-side drain does not panic), `SendStats` swaps the generation flag
to 0 and invokes `BumpCacheGenerations` iff the flag's value after
reconciliation was 1, and the final state's flag is 0; when reconciliation
fails the flag is left untouched (counterexample theorem). Moreover the
reconciler sets the flag to 1 whenever a mutation-class event type (rename,
unlink, rmdir) entry passes the sanity checks, regardless of the delta
values. -/
theorem c6_sendStats_generation (s : PBMState) (tables : String → KernelTable) :
    (∀ (s1 : PBMState) (ems : List Emission) (lw : List (String × List (Nat × Nat)))
        (p : PBMState × List Emission),
      collectAndSendKernelStats s true tables = CollectOut.done s1 ems lw none →
      sendEventsAndBytesReadStats { s1 with shouldBumpGeneration := 0 } = some p →
      ∃ out, SendStats s tables = some out ∧
        out.bumped = (s1.shouldBumpGeneration == 1) ∧
        out.state.shouldBumpGeneration = 0 ∧
        out.err = none) ∧
    (∀ (client : Bool) (b : String) (et cpu : Nat) (rs : PerfMapStats) (acc : BufAcc)
        (rows ks : List (List PerfMapStats)) (krow : List PerfMapStats) (prev : PerfMapStats),
      (et = FileRenameEventType ∨ et = FileUnlinkEventType ∨ et = FileRmdirEventType) →
      alookupD acc.state.stats b = rows → rows ≠ [] → cpu < rows.length →
      et < (rows.getD cpu []).length →
      alookup acc.state.kernelStats b = some ks →
      ks.get? cpu = some krow → krow.get? et = some prev →
      ∃ acc', stepCell client b et cpu rs acc = BufStep.ok acc' ∧
        acc'.state.shouldBumpGeneration = 1) := by
  constructor
  · intro s1 ems lw p hcol hdrain
    refine ⟨⟨(sendLostEventsReadStats p.1).1, ems ++ p.2 ++ (sendLostEventsReadStats p.1).2.1,
        lw, (sendLostEventsReadStats p.1).2.2, s1.shouldBumpGeneration == 1, none⟩, ?_, rfl, ?_, rfl⟩
    · simp only [SendStats, hcol]
      rw [hdrain]
    · show (sendLostEventsReadStats p.1).1.shouldBumpGeneration = 0
      rw [sendLostEventsReadStats_flag]
      have hflag := sendEventsAndBytesReadStats_flag _ _ hdrain
      simpa using hflag
  · intro client b et cpu rs acc rows ks krow prev hmut hrows hne hcpu het hks hk1 hk2
    have hg2 : ¬ (rows.length ≤ cpu) := not_le.mpr hcpu
    have hg3 : ¬ ((rows.getD cpu []).length ≤ et) := not_le.mpr het
    have hguard : ¬ (alookupD acc.state.stats b = [] ∨ (alookupD acc.state.stats b).length ≤ cpu ∨
        ((alookupD acc.state.stats b).getD cpu []).length ≤ et) := by
      rw [hrows]
      rintro (h | h | h)
      exacts [hne h, hg2 h, hg3 h]
    have hksD : alookupD acc.state.kernelStats b = ks := by
      simp [alookupD, hks]
    refine ⟨⟨{ acc.state with
        kernelStats := aupdate acc.state.kernelStats b (fun kr => lupdate kr cpu (fun r => lupdate r et (fun _ => rs)))
        shouldBumpGeneration := 1 },
      (if client then acc.ems ++ sendKernelStatsEms (reconDelta prev rs) b et else acc.ems),
      addU64 acc.total (reconDelta prev rs).lost,
      perEventAdd (perEventInit acc.perEvent et) et (reconDelta prev rs).lost⟩, ?_, rfl⟩
    simp only [stepCell]
    rw [if_neg hguard, hksD, hk1]
    dsimp only
    rw [hk2]
    dsimp only
    rw [if_pos hmut]
    rfl

/-- Witness for C6 (amended): a monitor with the flag raised and empty
kernel tables — reconciliation succeeds, the drain emits nothing, and the
bump is invoked with the final flag 0; and a rename-type kernel entry on a
fresh monitor forces the flag to 1. -/
theorem c6_sendStats_generation_witness :
    (∃ out, SendStats { initState ["dns"] 1 with shouldBumpGeneration := 1 } (fun _ => ⟨[], false⟩)
        = some out ∧
      out.bumped = (((1 : Nat)) == 1) ∧
      out.state.shouldBumpGeneration = 0 ∧
      out.err = none) ∧
    (∃ acc', stepCell true "dns" FileRenameEventType 0 ⟨1, 1, 1⟩ ⟨initState ["dns"] 1, [], 0, []⟩
        = BufStep.ok acc' ∧
      acc'.state.shouldBumpGeneration = 1) :=
  ⟨(c6_sendStats_generation { initState ["dns"] 1 with shouldBumpGeneration := 1 } (fun _ => ⟨[], false⟩)).1
      { initState ["dns"] 1 with shouldBumpGeneration := 1 } [] []
      ({ initState ["dns"] 1 with shouldBumpGeneration := 0 }, []) (by rfl) (by rfl),
   (c6_sendStats_generation (initState ["dns"] 1) (fun _ => ⟨[], false⟩)).2
      true "dns" FileRenameEventType 0 ⟨1, 1, 1⟩ ⟨initState ["dns"] 1, [], 0, []⟩
      (initGrid 1) (initGrid 1) (List.replicate MaxEventType zeroStats) zeroStats
      (by decide) (by rfl) (by decide) (by decide) (by decide) (by rfl) (by rfl) (by rfl)⟩

end Probe
